import Mathlib

/-!
Verification development for the Plastic SCM zip installer script
(`install-plasticscm.py`).  The script is embedded shallowly:

* pure string manipulation (`get_first_version`, path joining, PATH lookup)
  is translated to executable Lean functions over `String` / `List Char`;
* the stateful install pipeline (`main`, `do_first_install`, `install_mono`,
  `install_client`, `install_server`, `do_upgrade`) is translated to explicit
  state passing over a small abstract filesystem record plus a trace of
  observable effects.  Outcomes of external operations (network fetches,
  subprocess exit data, directory probes) are supplied by an `Oracle` record,
  one field per external input the script consults.
* Python dynamic values that matter to control flow (the `bytes` standard
  output of a subprocess versus the `str` scraped from the web page) are
  modelled by the `PyVal` type together with Python's `==` semantics, under
  which a `bytes` value and a `str` value never compare equal.

HTTP mechanics, archive decoding and stdout printing are abstracted exactly
as far as the script's control flow allows: a download is a `fetch` effect
whose success is an oracle bit, an extraction is an `extractTo` effect that
makes the staged subtree exist, and prints are not modelled (they carry no
state).  Archive contents are assumed well formed (the staged `client` /
`server` subtrees exist after a successful extraction), matching the moves
the script performs unconditionally.
-/

namespace PlasticInstaller

/-! ## Version scraping: `get_first_version`

The script runs `re.search("Version:.*\n *<span>([^ ]*)", html)` and returns
group 1.  For this particular pattern the regex engine is deterministic once
the starting offset is fixed:

* `.` does not match a newline, so the greedy `.*` followed by `\n` must
  consume exactly the characters up to and including the first newline after
  the `Version:` literal (any shorter attempt leaves a non-newline character
  where `\n` is required);
* the greedy run of spaces before `<span>` cannot backtrack usefully because
  a space never begins `<span>`, so it consumes the maximal run of spaces;
* the trailing capture `([^ ]*)` is greedy with nothing after it, so it is
  the maximal run of non-space characters (newlines included: the class only
  excludes the space character).

`re.search` tries start offsets left to right, which `searchFrom` mirrors. -/

/-- The tail of the pattern after the `Version:` literal: consume the rest of
the line and its newline, then spaces, then the literal `<span>`, then
capture the maximal run of non-space characters. -/
def matchTail (cs : List Char) : Option String :=
  match cs.dropWhile (fun c => c ≠ '\n') with
  | [] => none
  | _ :: afterNewline =>
    let afterSpaces := afterNewline.dropWhile (fun c => c = ' ')
    if "<span>".data.isPrefixOf afterSpaces then
      some (String.mk ((afterSpaces.drop 6).takeWhile (fun c => c ≠ ' ')))
    else none

/-- Leftmost search for the whole pattern, trying each start offset in turn
exactly as `re.search` does. -/
def searchFrom : List Char → Option String
  | [] => none
  | c :: cs =>
    if "Version:".data.isPrefixOf (c :: cs) then
      match matchTail ((c :: cs).drop 8) with
      | some v => some v
      | none => searchFrom cs
    else searchFrom cs

/-- `get_first_version(html)`: group 1 of the first match of
`Version:.*\n *<span>([^ ]*)`, or `None` when the pattern does not occur. -/
def get_first_version (html : String) : Option String :=
  searchFrom html.data

/-! ## Python dynamic values

`retrieve_current_version` returns `subprocess.run(...).stdout`, a `bytes`
value, while `retrieve_latest_version` returns a `str` (or `None`).  `main`
compares them with `==`.  In Python 3, `bytes == str` is `False` whatever the
contents, and `None == None` is `True`. -/

/-- A Python value as far as the version comparison is concerned: a text
string or a byte string (its decoded content is kept as a Lean `String`;
only content equality within the same type matters). -/
inductive PyVal
  | str (s : String)
  | bytes (b : String)
deriving DecidableEq

/-- Python `==` on `str` / `bytes` operands: equal contents of the *same*
type compare equal; a `bytes` value never equals a `str` value. -/
def pyEq : PyVal → PyVal → Bool
  | .str a, .str b => a == b
  | .bytes a, .bytes b => a == b
  | _, _ => false

/-- Python `==` lifted to optional values (`None == None` is `True`,
`None == v` is `False` for any non-`None` `v`). -/
def pyEqOpt : Option PyVal → Option PyVal → Bool
  | some a, some b => pyEq a b
  | none, none => true
  | _, _ => false

/-! ## Paths

`os.path.join` on the two-argument calls the script makes. -/

/-- `os.path.join(a, b)` for a single join: an absolute second component
replaces the first; otherwise a separator is inserted unless the first
component is empty or already ends in one. -/
def joinPath (a b : String) : String :=
  if b.data.head? = some '/' then b
  else if a.data = [] then b
  else if a.data.getLast? = some '/' then a ++ b
  else a ++ "/" ++ b

def BASE : String := "/opt/plasticscm5"

def CertsFile : String := "/etc/ssl/certs/ca-certificates.crt"

def MonoBase : String := joinPath BASE "mono"

def MonoBin : String := joinPath MonoBase "bin"

def Certtools : String := joinPath BASE "certtools"

def CertSync : String := joinPath MonoBin "cert-sync"

def CertMgr : String := joinPath Certtools "certmgr"

def MonoLib : String := joinPath MonoBase "lib"

def Mozroots : String := joinPath Certtools "mozroots"

def PlasticTheme : String := joinPath BASE "theme"

def PlasticClient : String := joinPath BASE "client"

def ClientScripts : String := joinPath PlasticClient "scripts"

def PlasticServer : String := joinPath BASE "server"

def PlasticCm : String := joinPath PlasticClient "cm"

/-- `tempfile.gettempdir()` modelled as the conventional `/tmp`. -/
def TmpRoot : String := "/tmp"

def TmpBase : String := joinPath TmpRoot "plasticupdater"

def TmpServer : String := joinPath TmpBase "server"

def TmpClient : String := joinPath TmpBase "client"

/-! ## Effects, errors, filesystem abstraction -/

/-- The remote resources the script fetches.  The `Uris` class builds these
as format strings; only their identity (which bundle, which version) matters
to the control flow, so they are kept abstract here. -/
inductive Uri
  | downloadPage
  | labsPage
  | monoTar
  | clientZip (version : String)
  | serverZip (version : String)
deriving DecidableEq

/-- Python exceptions the modelled code can raise. -/
inductive PyErr
  | fetchError
  | moveError
  | typeError
  | attributeError
  | notImplementedError
deriving DecidableEq

/-- Observable effects of one run, in program order.  Prints to
stdout/stderr are not modelled (they never influence state). -/
inductive Effect
  | fetch (u : Uri)
  | makedirs (path : String)
  | extractTo (path : String)
  | move (src dst : String)
  | symlink (target linkName : String)
  | chmod (path : String)
  | rmtree (path : String)
  | patchFile (path token value : String)
  | runCmd (name : String) (args : List String)
deriving DecidableEq

/-- Whether an effect mutates the filesystem.  A `fetch` reads bytes into
memory and a `runCmd` only spawns a subprocess; everything else writes. -/
def Effect.isFsMutation : Effect → Bool
  | .fetch _ => false
  | .runCmd _ _ => false
  | _ => true

/-- Whether an effect is a fetch of the server bundle. -/
def Effect.isServerFetch : Effect → Bool
  | .fetch (.serverZip _) => true
  | _ => false

/-- Whether an effect is an in-place placeholder substitution
(`replace_in_file`). -/
def Effect.isPatch : Effect → Bool
  | .patchFile _ _ _ => true
  | _ => false

/-- The directories whose existence the claims are about: the staging base
and its `client` / `server` subtrees, and the live client / server roots. -/
structure FS where
  tmpBase : Bool
  tmpClient : Bool
  tmpServer : Bool
  liveClient : Bool
  liveServer : Bool
deriving DecidableEq

/-- Outcome and trace of one step of the pipeline: the exception escaping
the step (if any), the filesystem afterwards, and the effects performed. -/
structure StepR where
  err : Option PyErr
  fs : FS
  tr : List Effect
deriving DecidableEq

/-- One field per external input the script consults: command-line flags,
the caller's uid, the downloads page, the probes of the live layout, the
`cm version` subprocess output, the PATH lookup environment, and the
success bits of the fallible download / move operations. -/
structure Oracle where
  uid : Nat
  labs : Bool
  no_upgrade : Bool
  /-- `urlopen` on the downloads page: `none` means the fetch raised
  (caught inside `retrieve_latest_version`), `some h` is the decoded body. -/
  pageHtml : Option String
  /-- `os.path.isdir(BASE)` on the live root. -/
  baseIsDir : Bool
  /-- `os.path.exists(Paths.Plastic.Cm)` on the entry-point binary. -/
  cmExists : Bool
  /-- Raw standard output bytes of `cm version`, untrimmed. -/
  cmStdout : String
  /-- Whether the mono tarball download and extraction succeed. -/
  monoFetchOk : Bool
  /-- `os.path.isfile(Paths.CertsFile)`. -/
  certsFileExists : Bool
  /-- `os.environ["PATH"]` after splitting on the path separator. -/
  pathDirs : List String
  /-- `is_exe(f)`: whether `f` is an existing executable file. -/
  isExe : String → Bool
  /-- Full paths produced by `glob.iglob` over `scripts/*.conf`. -/
  confFiles : List String
  /-- Whether the client zip download and extraction succeed. -/
  clientFetchOk : Bool
  /-- Whether the server zip download and extraction succeed. -/
  serverFetchOk : Bool
  /-- Whether `shutil.move` of the staged server tree succeeds (it can
  raise `OSError`, e.g. on a full disk or a failing cross-device copy). -/
  serverMoveOk : Bool

/-! ## Version oracle functions -/

/-- Which downloads page `retrieve_latest_version` opens. -/
def pageUri (labs : Bool) : Uri :=
  if labs then .labsPage else .downloadPage

/-- `retrieve_latest_version(use_labs)`: on a fetch failure the exception is
caught and `None` returned; otherwise the body is scraped.  Returns a Python
`str` (wrapped later) or `None`. -/
def retrieve_latest_version (o : Oracle) : Option String :=
  match o.pageHtml with
  | none => none
  | some html => get_first_version html

/-- Trace of `retrieve_latest_version`: one page fetch either way. -/
def retrieve_latest_version_tr (o : Oracle) : List Effect :=
  [.fetch (pageUri o.labs)]

/-- `retrieve_current_version()`: `None` when the live root or the `cm`
binary is absent; otherwise `subprocess.run([cm, "version"]).stdout` — the
raw standard output `bytes`, returned verbatim with no decoding and no
trimming. -/
def retrieve_current_version (o : Oracle) : Option PyVal :=
  if !o.baseIsDir || !o.cmExists then none
  else some (.bytes o.cmStdout)

/-- Trace of `retrieve_current_version`: the `cm version` subprocess, run
only when both existence probes pass. -/
def retrieve_current_version_tr (o : Oracle) : List Effect :=
  if !o.baseIsDir || !o.cmExists then []
  else [.runCmd PlasticCm ["version"]]

/-! ## Certificate update helpers -/

/-- Python `str.strip(chars)` for `chars = "\""`: remove leading and
trailing double-quote characters. -/
def stripQuotes (s : String) : String :=
  String.mk ((((s.data.dropWhile (fun c => c = '"')).reverse.dropWhile
    (fun c => c = '"')).reverse))

/-- `is_command_in_path(command)`: walk the PATH entries in order, strip
quotes, join with the command name, return the first executable hit. -/
def is_command_in_path (isExe : String → Bool) :
    List String → String → Option String
  | [], _ => none
  | p :: rest, command =>
    let q := stripQuotes p
    let exe_file := joinPath q command
    if isExe exe_file then some exe_file
    else is_command_in_path isExe rest command

/-- `get_certificates_command()`: prefers `update-ca-certificates`, falls
back to `trust extract-compat`, and otherwise returns a bare `None` (note:
`None`, not a pair). -/
def get_certificates_command (isExe : String → Bool) (pathDirs : List String) :
    Option (String × List String) :=
  if (is_command_in_path isExe pathDirs "update-ca-certificates").isSome then
    some ("update-ca-certificates", [])
  else if (is_command_in_path isExe pathDirs "trust").isSome then
    some ("trust", ["extract-compat"])
  else none

/-- `run_command(name, args)`: prints the command line, runs it, and on a
nonzero exit status only prints "Failed!"; it never raises. -/
def run_command (name : String) (args : List String) : List Effect :=
  [.runCmd name args]

/-- `run_certificates_command()`: the source immediately tuple-unpacks the
result (`certs_command, args = get_certificates_command()`), so when the
lookup returns `None` the unpacking raises `TypeError` *before* the
`if certs_command is None` guard on the next line can run — that guard is
unreachable in the `None` case. -/
def run_certificates_command (o : Oracle) : Except PyErr (List Effect) :=
  match get_certificates_command o.isExe o.pathDirs with
  | none => .error .typeError
  | some (certs_command, args) => .ok (run_command certs_command args)

/-- `update_certificates()`: the system trust command, then `cert-sync`
when the certs file exists, then two `certmgr` imports and one `mozroots`
import, none of which raise. -/
def update_certificates (o : Oracle) (fs : FS) : StepR :=
  match run_certificates_command o with
  | .error e => ⟨some e, fs, []⟩
  | .ok tr0 =>
    let tr1 := if o.certsFileExists then [Effect.runCmd CertSync [CertsFile]] else []
    ⟨none, fs, tr0 ++ tr1
      ++ run_command CertMgr ["-ssl", "-m", "-y", "https://www.plasticscm.com/"]
      ++ run_command CertMgr ["-ssl", "-m", "-y", "https://cloud.plasticscm.com/"]
      ++ run_command Mozroots ["--import", "--machine", "--add-only"]⟩

/-! ## Install pipeline -/

/-- `download_mono()`: fetch the mono tarball and extract it into the live
base.  On a fetch/extract failure the handler evaluates
`Paths.Plastic.Mono`, an attribute that does not exist (`Mono` lives under
`Paths`, not `Paths.Plastic`), so the handler itself raises
`AttributeError` and the bare `raise` is never reached. -/
def download_mono (o : Oracle) (fs : FS) : StepR :=
  if o.monoFetchOk then
    ⟨none, fs, [.fetch .monoTar, .extractTo BASE]⟩
  else
    ⟨some .attributeError, fs, [.fetch .monoTar]⟩

/-- `install_mono()`: download, then certificate update. -/
def install_mono (o : Oracle) (fs : FS) : StepR :=
  let d := download_mono o fs
  match d.err with
  | some e => ⟨some e, d.fs, d.tr⟩
  | none =>
    let u := update_certificates o d.fs
    ⟨u.err, u.fs, d.tr ++ u.tr⟩

/-- `get_tmp_dir()`: create the staging base lazily. -/
def get_tmp_dir (fs : FS) : FS × List Effect :=
  if fs.tmpBase then (fs, [])
  else ({ fs with tmpBase := true }, [Effect.makedirs TmpBase])

/-- The `launchers` list exactly as the source writes it: the last three
entries of the intended list carry no separating commas, so Python's
adjacent-string-literal concatenation fuses them into the single name
`plasticapirepostatscalculatormono_setup`, leaving a five-element list. -/
def launchers : List String :=
  ["clconfigureclient",
   "cm",
   "gtkplastic",
   "gtkmergetool",
   "plasticapi" ++ "repostatscalculator" ++ "mono_setup"]

/-- Body of the per-launcher loop: move the launcher out of `scripts`, set
its execute bits, symlink it from `/usr/bin`, and for a launcher named
exactly `mono_setup` patch the placeholder with the mono install dir. -/
def processLauncher (launcher : String) : List Effect :=
  let launcher_path := joinPath ClientScripts launcher
  let dst_path := joinPath PlasticClient launcher
  [.move launcher_path dst_path,
   .chmod dst_path,
   .symlink dst_path (joinPath "/usr/bin" launcher)]
  ++ (if launcher == "mono_setup" then
        [.patchFile dst_path "@@MONOINSTALLDIR@@" MonoBase]
      else [])

/-- `install_client(latest_version)`: stage the client zip, commit it into
the live layout, and in a `finally` clause always remove the staged client
subtree (ignoring errors).  A failed download propagates `FetchError`
through that finalizer. -/
def install_client (o : Oracle) (latest_version : String) (fs : FS) : StepR :=
  let (fs1, trTmp) := get_tmp_dir fs
  if !o.clientFetchOk then
    ⟨some .fetchError, { fs1 with tmpClient := false },
      trTmp ++ [.fetch (.clientZip latest_version), .rmtree TmpClient]⟩
  else
    let fs2 := { fs1 with tmpClient := true }
    let trDl := [Effect.fetch (.clientZip latest_version), Effect.extractTo TmpBase]
    let fs3 := { fs2 with tmpClient := false, liveClient := true }
    let trMoves := [Effect.move TmpClient PlasticClient,
      Effect.move (joinPath PlasticClient "theme") PlasticTheme]
    let trConf := o.confFiles.map (fun conf_file => Effect.move conf_file PlasticClient)
    let trLaunch := (launchers.map processLauncher).flatten
    let trLib := [Effect.move (joinPath (joinPath PlasticClient "gitlibs") "libgit2_x64.so") MonoLib,
      Effect.rmtree ClientScripts]
    ⟨none, { fs3 with tmpClient := false },
      trTmp ++ trDl ++ trMoves ++ trConf ++ trLaunch ++ trLib ++ [.rmtree TmpClient]⟩

/-- `install_server(latest_version)`: stage the server zip and move it to
the live server root.  The `finally` clause removes `Paths.Tmp.Client` —
the *client* staging subtree, not the server one (source line 313) — so a
failure after staging leaves the staged server tree in place. -/
def install_server (o : Oracle) (latest_version : String) (fs : FS) : StepR :=
  let (fs1, trTmp) := get_tmp_dir fs
  if !o.serverFetchOk then
    ⟨some .fetchError, { fs1 with tmpClient := false },
      trTmp ++ [.fetch (.serverZip latest_version), .rmtree TmpClient]⟩
  else
    let fs2 := { fs1 with tmpServer := true }
    if o.serverMoveOk then
      ⟨none, { fs2 with tmpServer := false, liveServer := true, tmpClient := false },
        trTmp ++ [.fetch (.serverZip latest_version), .extractTo TmpBase,
          .move TmpServer PlasticServer, .rmtree TmpClient]⟩
    else
      ⟨some .moveError, { fs2 with tmpClient := false },
        trTmp ++ [.fetch (.serverZip latest_version), .extractTo TmpBase,
          .rmtree TmpClient]⟩

/-- `do_upgrade(version)`: prints the upgrade banner; the body is only a
`TODOS` comment, so it performs no effect and raises nothing. -/
def do_upgrade (_version : String) (fs : FS) : StepR :=
  ⟨none, fs, []⟩

/-- `do_first_install(version)`: create the live base, then mono, client,
server in order; any exception is caught, reported as a failed
installation, and swallowed (no rollback). -/
def do_first_install (o : Oracle) (version : String) (fs : FS) : StepR :=
  let tr0 := [Effect.makedirs BASE]
  let r1 := install_mono o fs
  match r1.err with
  | some e => ⟨some e, r1.fs, tr0 ++ r1.tr⟩
  | none =>
    let r2 := install_client o version r1.fs
    match r2.err with
    | some e => ⟨some e, r2.fs, tr0 ++ r1.tr ++ r2.tr⟩
    | none =>
      let r3 := install_server o version r2.fs
      ⟨r3.err, r3.fs, tr0 ++ r1.tr ++ r2.tr ++ r3.tr⟩

/-! ## Orchestrator -/

/-- Terminal state of one run of `main`, labelled by the status line the
script prints on that path (`failed e` is the "Installation failed" path,
`completed` is "All done!", `skippedUpgrade` is the silent fall-through
when `--no-upgrade` suppresses the upgrade). -/
inductive Outcome
  | permissionDenied
  | versionUnknown
  | upToDate
  | completed
  | failed (e : PyErr)
  | upgraded
  | skippedUpgrade
deriving DecidableEq

/-- Whether an outcome is a terminal state of the first-install path. -/
def Outcome.isFirstInstallOutcome : Outcome → Bool
  | .completed => true
  | .failed _ => true
  | _ => false

/-- Result of one run of `main`. -/
structure MainR where
  outcome : Outcome
  fs : FS
  tr : List Effect
deriving DecidableEq

/-- `main()`: privilege check, version discovery, the up-to-date test
(Python `==` between the `bytes` current version and the `str` latest
version), then first install / upgrade / skipped upgrade. -/
def main (o : Oracle) (fs : FS) : MainR :=
  if o.uid ≠ 0 then ⟨.permissionDenied, fs, []⟩
  else
    match retrieve_latest_version o with
    | none => ⟨.versionUnknown, fs, retrieve_latest_version_tr o⟩
    | some latest_version =>
      let trq := retrieve_latest_version_tr o ++ retrieve_current_version_tr o
      let current_version := retrieve_current_version o
      let is_already_installed := current_version.isSome
      if is_already_installed && pyEqOpt current_version (some (.str latest_version)) then
        ⟨.upToDate, fs, trq⟩
      else if !is_already_installed then
        let r := do_first_install o latest_version fs
        ⟨match r.err with | none => .completed | some e => .failed e, r.fs, trq ++ r.tr⟩
      else if !o.no_upgrade then
        let r := do_upgrade latest_version fs
        ⟨.upgraded, r.fs, trq ++ r.tr⟩
      else ⟨.skippedUpgrade, fs, trq⟩

/-! ## Concrete scenarios used as witnesses and failing inputs -/

/-- The empty filesystem: nothing staged, nothing installed. -/
def fs0 : FS := ⟨false, false, false, false, false⟩

/-- A fresh host on which everything external succeeds: root privileges, a
downloads page whose span yields the token `9.0.16.1234`, no live
installation, `update-ca-certificates` present on PATH, and all downloads
and moves succeeding. -/
def oBase : Oracle :=
  { uid := 0, labs := false, no_upgrade := false,
    pageHtml := some "Version:\n<span>9.0.16.1234 </span>",
    baseIsDir := false, cmExists := false, cmStdout := "",
    monoFetchOk := true, certsFileExists := true,
    pathDirs := ["/usr/sbin"],
    isExe := fun s => s == "/usr/sbin/update-ca-certificates",
    confFiles := [], clientFetchOk := true, serverFetchOk := true,
    serverMoveOk := true }

/-- `oBase`, but the software is already installed and `cm version` prints
a token different from the latest one. -/
def oInstalled : Oracle :=
  { oBase with baseIsDir := true, cmExists := true, cmStdout := "8.0.0.0" }

/-- `oBase`, but the host is by every reasonable measure at the latest
version already: `cm version` emits exactly the latest token (as bytes). -/
def oSameVersion : Oracle :=
  { oBase with baseIsDir := true, cmExists := true, cmStdout := "9.0.16.1234" }

/-- `oBase`, but no certificate-trust-update command is on PATH. -/
def oNoCerts : Oracle :=
  { oBase with isExe := fun _ => false }

/-- `oBase`, but the download of the client archive fails. -/
def oClientFetchFail : Oracle :=
  { oBase with clientFetchOk := false }

/-- `oBase`, but the move of the staged server tree into the live layout
fails (for instance the disk fills up during the cross-device copy). -/
def oServerMoveFail : Oracle :=
  { oBase with serverMoveOk := false }

/-! ## Helper lemmas -/

/-- Whenever `retrieve_current_version` returns a value, that value is the
raw `bytes` standard output of the `cm version` subprocess. -/
theorem retrieve_current_version_bytes (o : Oracle) (cur : PyVal)
    (h : retrieve_current_version o = some cur) :
    cur = PyVal.bytes o.cmStdout := by
  unfold retrieve_current_version at h
  split at h
  · exact absurd h (by simp)
  · exact (Option.some_inj.mp h).symm

/-- The version-discovery queries perform no filesystem mutation. -/
theorem query_tr_no_mutation (o : Oracle) :
    (retrieve_latest_version_tr o ++ retrieve_current_version_tr o).filter
      Effect.isFsMutation = [] := by
  unfold retrieve_latest_version_tr retrieve_current_version_tr
  split <;> rfl

/-- Reduction of `main` on an installed host whose latest version was
discovered: the up-to-date test always fails (the current version is
`bytes`, the latest a `str`), so the run continues to the upgrade decision. -/
theorem main_installed_branch (o : Oracle) (fs : FS) (v : String) (cur : PyVal)
    (h0 : o.uid = 0) (h1 : retrieve_latest_version o = some v)
    (h2 : retrieve_current_version o = some cur) :
    main o fs =
      if o.no_upgrade then
        ⟨.skippedUpgrade, fs, retrieve_latest_version_tr o ++ retrieve_current_version_tr o⟩
      else
        ⟨.upgraded, fs, retrieve_latest_version_tr o ++ retrieve_current_version_tr o⟩ := by
  have hb := retrieve_current_version_bytes o cur h2
  unfold main
  rw [h1]
  simp only [h0, h2, hb]
  cases hnu : o.no_upgrade <;> simp [pyEqOpt, pyEq, do_upgrade]

/-- Reduction of `main` on a host with no live installation root: the run
always enters `do_first_install`. -/
theorem main_first_install (o : Oracle) (fs : FS) (v : String)
    (h0 : o.uid = 0) (h1 : retrieve_latest_version o = some v)
    (h2 : o.baseIsDir = false) :
    main o fs =
      ⟨match (do_first_install o v fs).err with
        | none => Outcome.completed
        | some e => Outcome.failed e,
       (do_first_install o v fs).fs,
       (retrieve_latest_version_tr o ++ retrieve_current_version_tr o)
         ++ (do_first_install o v fs).tr⟩ := by
  unfold main
  rw [h1]
  simp [retrieve_current_version, h2, h0]

/-- No effect other than a server-zip fetch counts as a server fetch;
one `rfl` lemma per constructor shape the pipeline emits. -/
theorem isServerFetch_fetch_download :
    (Effect.fetch Uri.downloadPage).isServerFetch = false := rfl

theorem isServerFetch_fetch_labs :
    (Effect.fetch Uri.labsPage).isServerFetch = false := rfl

theorem isServerFetch_fetch_mono :
    (Effect.fetch Uri.monoTar).isServerFetch = false := rfl

theorem isServerFetch_fetch_client (v : String) :
    (Effect.fetch (Uri.clientZip v)).isServerFetch = false := rfl

theorem isServerFetch_makedirs (p : String) :
    (Effect.makedirs p).isServerFetch = false := rfl

theorem isServerFetch_extractTo (p : String) :
    (Effect.extractTo p).isServerFetch = false := rfl

theorem isServerFetch_rmtree (p : String) :
    (Effect.rmtree p).isServerFetch = false := rfl

theorem isServerFetch_runCmd (n : String) (a : List String) :
    (Effect.runCmd n a).isServerFetch = false := rfl

/-- The version-discovery queries fetch only the downloads page, never a
server bundle. -/
theorem query_tr_no_server_fetch (o : Oracle) :
    (retrieve_latest_version_tr o ++ retrieve_current_version_tr o).filter
      Effect.isServerFetch = [] := by
  unfold retrieve_latest_version_tr retrieve_current_version_tr pageUri
  cases o.labs <;> cases hbc : (!o.baseIsDir || !o.cmExists) <;>
    simp [isServerFetch_fetch_download, isServerFetch_fetch_labs,
      isServerFetch_runCmd]

/-! ## Claims -/

/-- C1, counterexample: on the vendor page body
`"Version: foo\n  <span>9.0.16.1234</span>"` the scraper does *not* return
the bare token `"9.0.16.1234"`: the greedy `[^ ]*` capture runs past the
version token because `</span>` contains no space. -/
theorem get_first_version_spec_body_cex :
    get_first_version "Version: foo\n  <span>9.0.16.1234</span>" ≠
      some "9.0.16.1234" := by decide

/-- C1 (amended): on the vendor page body
`"Version: foo\n  <span>9.0.16.1234</span>"`, `get_first_version` (and
hence `retrieve_latest_version` on a page with that body) returns
`"9.0.16.1234</span>"` — the version token with the closing tag attached,
since the capture `[^ ]*` stops only at a space. -/
theorem get_first_version_spec_body :
    get_first_version "Version: foo\n  <span>9.0.16.1234</span>" =
      some "9.0.16.1234</span>" := by decide

/-- C3: the `launchers` list as written contains no element equal to
`"mono_setup"` — the missing commas fuse the last three intended names into
`"plasticapirepostatscalculatormono_setup"`, leaving five elements — so the
commit of the client bundle performs the `@@MONOINSTALLDIR@@` substitution
on *zero* launchers: even a fully successful `install_client` run emits no
in-place file patch. -/
theorem client_commit_never_patches_mono_setup :
    "mono_setup" ∉ launchers ∧
    "plasticapirepostatscalculatormono_setup" ∈ launchers ∧
    launchers.length = 5 ∧
    (install_client oBase "9.0.16.1234" fs0).err = none ∧
    (install_client oBase "9.0.16.1234" fs0).tr.filter Effect.isPatch = [] := by
  decide

/-- C4: with neither `update-ca-certificates` nor `trust` on PATH,
`get_certificates_command()` returns `None`, the tuple unpacking in
`run_certificates_command` raises `TypeError` before the `None` guard can
log and return, and the whole first install aborts as failed instead of
continuing. -/
theorem certs_command_missing_aborts_install :
    get_certificates_command (fun _ => false) ["/usr/sbin", "/usr/bin"] = none ∧
    run_certificates_command oNoCerts = Except.error PyErr.typeError ∧
    (main oNoCerts fs0).outcome = Outcome.failed PyErr.typeError := by
  refine ⟨rfl, rfl, ?_⟩
  decide

/-- C2: on a `FirstInstall` attempt in which the server archive is staged
successfully but the move of the staged server tree into the live layout
fails, the attempt ends failed and the staging area's *server* subtree
still exists — the `finally` clause of `install_server` removes the
*client* staging subtree (again) rather than the server one, and no effect
in the whole run ever removes the server staging subtree. -/
theorem server_staging_survives_failed_move :
    (main oServerMoveFail fs0).outcome = Outcome.failed PyErr.moveError ∧
    (main oServerMoveFail fs0).fs.tmpServer = true ∧
    (main oServerMoveFail fs0).fs.tmpClient = false ∧
    Effect.rmtree TmpServer ∉ (main oServerMoveFail fs0).tr := by
  decide

/-- C5: on an installed host whose `cm version` standard output is byte for
byte the latest version token, the orchestrator still does *not* reach the
up-to-date state: the comparison is Python `==` between a `bytes` value and
a `str` value, which is always `False`, so the run proceeds to the upgrade
path (which happens to mutate nothing only because `do_upgrade` is a
stub). -/
theorem same_version_not_detected_up_to_date :
    retrieve_latest_version oSameVersion = some "9.0.16.1234" ∧
    retrieve_current_version oSameVersion = some (PyVal.bytes "9.0.16.1234") ∧
    (main oSameVersion fs0).outcome = Outcome.upgraded ∧
    (main oSameVersion fs0).outcome ≠ Outcome.upToDate ∧
    (main oSameVersion fs0).tr.filter Effect.isFsMutation = [] := by
  decide

/-- C6, counterexample: when the orchestrator takes the upgrade transition
(installed host, differing version, upgrade not suppressed), `do_upgrade`
raises nothing and performs nothing — the run terminates in the normally
completed `upgraded` state rather than raising `NotImplementedError`. -/
theorem upgrade_no_raise_cex :
    do_upgrade "9.0.16.1234" fs0 = ⟨none, fs0, []⟩ ∧
    (main oInstalled fs0).outcome = Outcome.upgraded ∧
    (main oInstalled fs0).outcome ≠ Outcome.failed PyErr.notImplementedError := by
  decide

/-- C6 (amended): whenever the orchestrator takes the upgrade transition —
installed host, latest version discovered, `--no-upgrade` not set — the
upgrade operation silently completes as a no-op: it raises nothing, leaves
the filesystem untouched, and performs no mutating effect. -/
theorem upgrade_silent_noop (o : Oracle) (fs : FS) (v : String) (cur : PyVal)
    (h0 : o.uid = 0) (h1 : retrieve_latest_version o = some v)
    (h2 : retrieve_current_version o = some cur) (h3 : o.no_upgrade = false) :
    (main o fs).outcome = Outcome.upgraded ∧
    (main o fs).fs = fs ∧
    (main o fs).tr.filter Effect.isFsMutation = [] ∧
    do_upgrade v fs = ⟨none, fs, []⟩ := by
  rw [main_installed_branch o fs v cur h0 h1 h2, h3]
  exact ⟨rfl, rfl, query_tr_no_mutation o, rfl⟩

/-- C6 witness: the amended statement at a concrete installed host. -/
theorem upgrade_silent_noop_witness :
    retrieve_latest_version oInstalled = some "9.0.16.1234" ∧
    retrieve_current_version oInstalled = some (PyVal.bytes "8.0.0.0") ∧
    (main oInstalled fs0).outcome = Outcome.upgraded ∧
    (main oInstalled fs0).fs = fs0 ∧
    (main oInstalled fs0).tr.filter Effect.isFsMutation = [] ∧
    do_upgrade "9.0.16.1234" fs0 = ⟨none, fs0, []⟩ :=
  ⟨by decide, by decide,
   (upgrade_silent_noop oInstalled fs0 "9.0.16.1234" (PyVal.bytes "8.0.0.0")
     rfl (by decide) (by decide) rfl).1,
   (upgrade_silent_noop oInstalled fs0 "9.0.16.1234" (PyVal.bytes "8.0.0.0")
     rfl (by decide) (by decide) rfl).2.1,
   (upgrade_silent_noop oInstalled fs0 "9.0.16.1234" (PyVal.bytes "8.0.0.0")
     rfl (by decide) (by decide) rfl).2.2.1,
   (upgrade_silent_noop oInstalled fs0 "9.0.16.1234" (PyVal.bytes "8.0.0.0")
     rfl (by decide) (by decide) rfl).2.2.2⟩

/-- C8: on a host with no live installation root, the orchestrator enters
the first-install path — ending in one of its two terminal states — and the
whole run is unaffected by the value of the `--no-upgrade` flag. -/
theorem absent_install_first_install_any_flag (o : Oracle) (fs : FS) (v : String)
    (h0 : o.uid = 0) (h1 : retrieve_latest_version o = some v)
    (h2 : o.baseIsDir = false) :
    (main o fs).outcome.isFirstInstallOutcome = true ∧
    ∀ b : Bool, main { o with no_upgrade := b } fs = main o fs := by
  constructor
  · rw [main_first_install o fs v h0 h1 h2]
    cases herr : (do_first_install o v fs).err <;> simp [Outcome.isFirstInstallOutcome]
  · intro b
    have h0b : ({ o with no_upgrade := b } : Oracle).uid = 0 := h0
    have h1b : retrieve_latest_version { o with no_upgrade := b } = some v := h1
    have h2b : ({ o with no_upgrade := b } : Oracle).baseIsDir = false := h2
    rw [main_first_install { o with no_upgrade := b } fs v h0b h1b h2b,
      main_first_install o fs v h0 h1 h2]
    rfl

/-- C8 witness: a fresh host, both flag values compared concretely. -/
theorem absent_install_first_install_any_flag_witness :
    retrieve_latest_version oBase = some "9.0.16.1234" ∧
    oBase.baseIsDir = false ∧
    (main oBase fs0).outcome.isFirstInstallOutcome = true ∧
    main { oBase with no_upgrade := true } fs0 = main oBase fs0 :=
  ⟨by decide, rfl,
   (absent_install_first_install_any_flag oBase fs0 "9.0.16.1234"
     rfl (by decide) rfl).1,
   (absent_install_first_install_any_flag oBase fs0 "9.0.16.1234"
     rfl (by decide) rfl).2 true⟩

/-- C9: on an installed host whose version differs from the latest (the
code's own comparison fails) and with `--no-upgrade` set, the run falls
through `main` without printing and without touching the filesystem: the
`skippedUpgrade` terminal state with zero mutating effects. -/
theorem no_upgrade_flag_skips_without_mutation (o : Oracle) (fs : FS)
    (v : String) (cur : PyVal)
    (h0 : o.uid = 0) (h1 : retrieve_latest_version o = some v)
    (h2 : retrieve_current_version o = some cur)
    (_hne : pyEq cur (PyVal.str v) = false)
    (h3 : o.no_upgrade = true) :
    (main o fs).outcome = Outcome.skippedUpgrade ∧
    (main o fs).fs = fs ∧
    (main o fs).tr.filter Effect.isFsMutation = [] := by
  rw [main_installed_branch o fs v cur h0 h1 h2, h3]
  exact ⟨rfl, rfl, query_tr_no_mutation o⟩

/-- C9 witness: a concrete installed host running with `--no-upgrade`. -/
theorem no_upgrade_flag_skips_without_mutation_witness :
    retrieve_latest_version { oInstalled with no_upgrade := true } =
      some "9.0.16.1234" ∧
    retrieve_current_version { oInstalled with no_upgrade := true } =
      some (PyVal.bytes "8.0.0.0") ∧
    pyEq (PyVal.bytes "8.0.0.0") (PyVal.str "9.0.16.1234") = false ∧
    (main { oInstalled with no_upgrade := true } fs0).outcome =
      Outcome.skippedUpgrade ∧
    (main { oInstalled with no_upgrade := true } fs0).fs = fs0 ∧
    (main { oInstalled with no_upgrade := true } fs0).tr.filter
      Effect.isFsMutation = [] :=
  ⟨by decide, by decide, by decide,
   (no_upgrade_flag_skips_without_mutation { oInstalled with no_upgrade := true }
     fs0 "9.0.16.1234" (PyVal.bytes "8.0.0.0")
     rfl (by decide) (by decide) (by decide) rfl).1,
   (no_upgrade_flag_skips_without_mutation { oInstalled with no_upgrade := true }
     fs0 "9.0.16.1234" (PyVal.bytes "8.0.0.0")
     rfl (by decide) (by decide) (by decide) rfl).2.1,
   (no_upgrade_flag_skips_without_mutation { oInstalled with no_upgrade := true }
     fs0 "9.0.16.1234" (PyVal.bytes "8.0.0.0")
     rfl (by decide) (by decide) (by decide) rfl).2.2⟩

/-- C10: `retrieve_current_version` hands back the subprocess's raw
standard output as a `bytes` value, `retrieve_latest_version` a decoded
`str`; Python `==` between a `bytes` and a `str` value is `False` whatever
the contents, so every run on an installed host with a discovered latest
version gets past the up-to-date check to the install/upgrade decision. -/
theorem current_bytes_latest_str_comparison (o : Oracle) (fs : FS)
    (v : String) (cur : PyVal)
    (h0 : o.uid = 0) (h1 : retrieve_latest_version o = some v)
    (h2 : retrieve_current_version o = some cur) :
    cur = PyVal.bytes o.cmStdout ∧
    (∀ b s : String, pyEq (PyVal.bytes b) (PyVal.str s) = false) ∧
    pyEq cur (PyVal.str v) = false ∧
    (main o fs).outcome ≠ Outcome.upToDate := by
  have hb := retrieve_current_version_bytes o cur h2
  refine ⟨hb, fun b s => rfl, by rw [hb]; rfl, ?_⟩
  rw [main_installed_branch o fs v cur h0 h1 h2]
  cases o.no_upgrade <;> simp

/-- C10 witness: a concrete installed host; the comparison fails and the
run reaches the upgrade decision rather than the up-to-date state. -/
theorem current_bytes_latest_str_comparison_witness :
    retrieve_latest_version oInstalled = some "9.0.16.1234" ∧
    retrieve_current_version oInstalled = some (PyVal.bytes "8.0.0.0") ∧
    PyVal.bytes "8.0.0.0" = PyVal.bytes oInstalled.cmStdout ∧
    pyEq (PyVal.bytes "8.0.0.0") (PyVal.str "9.0.16.1234") = false ∧
    (main oInstalled fs0).outcome ≠ Outcome.upToDate :=
  ⟨by decide, by decide,
   (current_bytes_latest_str_comparison oInstalled fs0 "9.0.16.1234"
     (PyVal.bytes "8.0.0.0") rfl (by decide) (by decide)).1,
   (current_bytes_latest_str_comparison oInstalled fs0 "9.0.16.1234"
     (PyVal.bytes "8.0.0.0") rfl (by decide) (by decide)).2.2.1,
   (current_bytes_latest_str_comparison oInstalled fs0 "9.0.16.1234"
     (PyVal.bytes "8.0.0.0") rfl (by decide) (by decide)).2.2.2⟩

/-- C7: if the fetch of the client archive fails during a first install —
the mono step having succeeded — the run ends failed with `FetchError`, the
`finally` cleanup of the client staging subtree still executes (the subtree
does not exist afterwards and its removal is in the trace), and no fetch of
the server bundle is ever issued. -/
theorem client_fetch_fail_cleanup_no_server (o : Oracle) (fs : FS) (v : String)
    (h0 : o.uid = 0) (h1 : retrieve_latest_version o = some v)
    (h2 : o.baseIsDir = false) (hm : o.monoFetchOk = true)
    (hcrt : (get_certificates_command o.isExe o.pathDirs).isSome = true)
    (hc : o.clientFetchOk = false) :
    (main o fs).outcome = Outcome.failed PyErr.fetchError ∧
    Effect.rmtree TmpClient ∈ (main o fs).tr ∧
    (main o fs).fs.tmpClient = false ∧
    (main o fs).tr.filter Effect.isServerFetch = [] := by
  obtain ⟨⟨c, cargs⟩, hca⟩ := Option.isSome_iff_exists.mp hcrt
  have hmono : install_mono o fs =
      ⟨none, fs,
       [Effect.fetch Uri.monoTar, Effect.extractTo BASE] ++
        ([Effect.runCmd c cargs] ++
          (if o.certsFileExists then [Effect.runCmd CertSync [CertsFile]] else []) ++
          [Effect.runCmd CertMgr ["-ssl", "-m", "-y", "https://www.plasticscm.com/"]] ++
          [Effect.runCmd CertMgr ["-ssl", "-m", "-y", "https://cloud.plasticscm.com/"]] ++
          [Effect.runCmd Mozroots ["--import", "--machine", "--add-only"]])⟩ := by
    unfold install_mono download_mono update_certificates
      run_certificates_command run_command
    rw [hca]
    simp [hm]
  have hcl : install_client o v fs =
      ⟨some PyErr.fetchError,
       { (if fs.tmpBase then fs else { fs with tmpBase := true }) with
           tmpClient := false },
       (if fs.tmpBase then ([] : List Effect) else [Effect.makedirs TmpBase]) ++
         [Effect.fetch (Uri.clientZip v), Effect.rmtree TmpClient]⟩ := by
    unfold install_client get_tmp_dir
    cases htb : fs.tmpBase <;> simp [hc]
  have hdfi : do_first_install o v fs =
      ⟨some PyErr.fetchError, (install_client o v fs).fs,
       [Effect.makedirs BASE] ++ (install_mono o fs).tr ++ (install_client o v fs).tr⟩ := by
    simp only [do_first_install, hmono, hcl]
  rw [main_first_install o fs v h0 h1 h2, hdfi]
  refine ⟨rfl, ?_, ?_, ?_⟩
  · refine List.mem_append_right _ (List.mem_append_right _ ?_)
    rw [hcl]
    exact List.mem_append_right _ (by simp)
  · rw [hcl]
  · rw [hmono, hcl]
    have hq1 : ∀ a ∈ retrieve_latest_version_tr o, a.isServerFetch = false := by
      unfold retrieve_latest_version_tr pageUri
      cases o.labs <;>
        simp [isServerFetch_fetch_download, isServerFetch_fetch_labs]
    have hq2 : ∀ a ∈ retrieve_current_version_tr o, a.isServerFetch = false := by
      unfold retrieve_current_version_tr
      split <;> simp [isServerFetch_runCmd]
    cases o.certsFileExists <;> cases fs.tmpBase <;>
      simp [isServerFetch_runCmd, isServerFetch_makedirs,
        isServerFetch_fetch_mono, isServerFetch_extractTo,
        isServerFetch_fetch_client, isServerFetch_rmtree]
    all_goals exact ⟨hq1, hq2⟩

/-- C7 witness: a fresh host whose client download fails. -/
theorem client_fetch_fail_cleanup_no_server_witness :
    retrieve_latest_version oClientFetchFail = some "9.0.16.1234" ∧
    (get_certificates_command oClientFetchFail.isExe
      oClientFetchFail.pathDirs).isSome = true ∧
    (main oClientFetchFail fs0).outcome = Outcome.failed PyErr.fetchError ∧
    Effect.rmtree TmpClient ∈ (main oClientFetchFail fs0).tr ∧
    (main oClientFetchFail fs0).fs.tmpClient = false ∧
    (main oClientFetchFail fs0).tr.filter Effect.isServerFetch = [] :=
  ⟨by decide, by decide,
   (client_fetch_fail_cleanup_no_server oClientFetchFail fs0 "9.0.16.1234"
     rfl (by decide) rfl rfl (by decide) rfl).1,
   (client_fetch_fail_cleanup_no_server oClientFetchFail fs0 "9.0.16.1234"
     rfl (by decide) rfl rfl (by decide) rfl).2.1,
   (client_fetch_fail_cleanup_no_server oClientFetchFail fs0 "9.0.16.1234"
     rfl (by decide) rfl rfl (by decide) rfl).2.2.1,
   (client_fetch_fail_cleanup_no_server oClientFetchFail fs0 "9.0.16.1234"
     rfl (by decide) rfl rfl (by decide) rfl).2.2.2⟩

end PlasticInstaller
